import Mathlib

/-!
Shallow embedding of the authentication core of the backend repository
(src/app/auth_prisma.py and src/app/models_prisma.py).

The credential store (Prisma `user` table) is modelled as a list of
identity records; `find_unique` becomes `List.find?`.  Time is a `Nat`
(seconds); `datetime.utcnow()` becomes an explicit `now` parameter and
`timedelta` an explicit number of seconds.  The external libraries the
source delegates to (passlib bcrypt, python-jose JWT) are not part of the
repository, so they are modelled from the spec's contracts, marked below.
Each HTTP handler is a function from the store (plus request data, time,
and the signing key) to a response together with the resulting store.
-/

namespace Backend

/-- Modelled from the spec: the payload of a signed token, carrying the
subject claim (which may be absent) and an absolute expiry timestamp
(`Token` data model: subject = username, expiry = absolute timestamp). -/
structure JWTPayload where
  sub : Option String
  exp : Nat
deriving DecidableEq, Repr

/-- Modelled from the spec: a token string produced by the python-jose
library (absent from src/).  It records the payload it encodes together
with the key and payload its signature was produced over; a forged or
corrupted token is one whose signature fields do not match. -/
structure JWT where
  payload : JWTPayload
  sigKey : String
  sigPayload : JWTPayload
deriving DecidableEq, Repr

/-- Modelled from the spec: signing a payload with the server key
(`jwt.encode` in python-jose, absent from src/). -/
def jwt_encode (payload : JWTPayload) (key : String) : JWT :=
  ⟨payload, key, payload⟩

/-- Modelled from the spec: `jwt.decode` of python-jose (absent from
src/).  Validation fails when the signature does not verify against the
server key or when the current time is at or past the expiry claim
("Fails when: signature does not verify ... or current time ≥ expiry"). -/
def jwt_decode (token : JWT) (key : String) (now : Nat) : Option JWTPayload :=
  if token.sigKey = key ∧ token.sigPayload = token.payload ∧ now < token.payload.exp then
    some token.payload
  else
    none

/-- Configuration constant (src/app/auth_prisma.py line 21). -/
def ACCESS_TOKEN_EXPIRE_MINUTES : Nat := 30

/-- Modelled from the spec: an opaque bcrypt digest as produced by the
passlib library (absent from src/).  A stored hash is either a well-formed
bcrypt digest of some plaintext, or a malformed string that is not a valid
hash at all. -/
inductive PasswordHash where
  | bcrypt (digest : String)
  | malformed (raw : String)
deriving DecidableEq, Repr

/-- Modelled from the spec: `pwd_context.hash` — "hash(plaintext) ->
opaque_hash" (src/app/auth_prisma.py lines 41-43 delegate to passlib,
absent from src/).  The salt is abstracted away. -/
def get_password_hash (password : String) : PasswordHash :=
  .bcrypt password

/-- Modelled from the spec: `pwd_context.verify` — "verify(plaintext,
opaque_hash) -> bool returns true iff the plaintext matches the original
input used to produce that hash", and "No error is raised for malformed
hashes encountered during verify — they simply fail verification"
(src/app/auth_prisma.py lines 37-39 delegate to passlib, absent from
src/). -/
def verify_password (plain_password : String) (hashed_password : PasswordHash) : Bool :=
  match hashed_password with
  | .bcrypt digest => digest = plain_password
  | .malformed _ => false

/-- Identity record of the Prisma `user` table: id, username, email,
stored password hash, timestamps. -/
structure User where
  id : String
  username : String
  email : String
  password : PasswordHash
  createdAt : Nat
  updatedAt : Nat
deriving DecidableEq, Repr

/-- Lookup by username: `prisma.user.find_unique(where=username)`
(src/app/auth_prisma.py lines 56-58). -/
def get_user_by_username (db : List User) (username : String) : Option User :=
  db.find? (fun u => u.username == username)

/-- Lookup by email: `prisma.user.find_unique(where=email)`
(src/app/auth_prisma.py lines 60-62). -/
def get_user_by_email (db : List User) (email : String) : Option User :=
  db.find? (fun u => u.email == email)

/-- Authenticate a username/password pair against the store
(src/app/auth_prisma.py lines 64-71); `False` becomes `none`. -/
def authenticate_user (db : List User) (username : String) (password : String) : Option User :=
  match get_user_by_username db username with
  | none => none
  | some user =>
    if verify_password password user.password then some user else none

/-- Public user view (src/app/models_prisma.py lines 18-23): id, email,
username and timestamps; no password field. -/
structure UserResponse where
  id : String
  email : String
  username : String
  createdAt : Nat
  updatedAt : Nat
deriving DecidableEq, Repr

/-- Projection of an identity record to its public view
(`UserResponse(**user.dict())` keeps exactly the declared fields). -/
def UserResponse.ofUser (u : User) : UserResponse :=
  ⟨u.id, u.email, u.username, u.createdAt, u.updatedAt⟩

/-- Token response model (src/app/auth_prisma.py lines 32-35). -/
structure Token where
  access_token : JWT
  token_type : String
  user : UserResponse
deriving DecidableEq, Repr

/-- An HTTP error response: status code and detail message
(fastapi.HTTPException as raised by the handlers). -/
structure HTTPError where
  status_code : Nat
  detail : String
deriving DecidableEq, Repr

/-- The single uniform 401 raised by `get_current_user`
(src/app/auth_prisma.py lines 78-82). -/
def credentials_exception : HTTPError :=
  ⟨401, "Could not validate credentials"⟩

/-- Signup request body (src/app/models_prisma.py lines 9-12). -/
structure UserCreate where
  email : String
  username : String
  password : String
deriving DecidableEq, Repr

/-- Login request body (src/app/models_prisma.py lines 14-16). -/
structure UserLogin where
  username : String
  password : String
deriving DecidableEq, Repr

/-- Token issuer (src/app/auth_prisma.py lines 45-54).  The `data` dict
is used only for its "sub" entry, modelled as `sub`; `expires_delta` is
seconds, `none` when no explicit ttl is supplied.  Python's
`if expires_delta:` is falsy for a zero timedelta, hence the `d = 0`
branch. -/
def create_access_token (sub : Option String) (expires_delta : Option Nat)
    (now : Nat) (key : String) : JWT :=
  let expire :=
    match expires_delta with
    | some d => if d = 0 then now + 15 * 60 else now + d
    | none => now + 15 * 60
  jwt_encode ⟨sub, expire⟩ key

/-- Session resolver (src/app/auth_prisma.py lines 73-95): decode the
bearer token, require a subject claim, look the subject up in the store;
every failure raises the same `credentials_exception`.  The resulting
store is returned alongside the response. -/
def get_current_user (db : List User) (token : JWT) (key : String) (now : Nat) :
    Except HTTPError User × List User :=
  match jwt_decode token key now with
  | none => (.error credentials_exception, db)
  | some payload =>
    match payload.sub with
    | none => (.error credentials_exception, db)
    | some username =>
      match get_user_by_username db username with
      | none => (.error credentials_exception, db)
      | some user => (.ok user, db)

/-- Signup handler (src/app/auth_prisma.py lines 97-135): check username
uniqueness, then email uniqueness, then hash the password, insert the new
record (`newId` stands for the Prisma-generated id, `now` for the
timestamps), and issue a 30-minute token for the new username. -/
def signup (db : List User) (user_data : UserCreate) (newId : String)
    (now : Nat) (key : String) : Except HTTPError Token × List User :=
  match get_user_by_username db user_data.username with
  | some _ => (.error ⟨400, "Username already registered"⟩, db)
  | none =>
    match get_user_by_email db user_data.email with
    | some _ => (.error ⟨400, "Email already registered"⟩, db)
    | none =>
      let hashed_password := get_password_hash user_data.password
      let db_user : User :=
        ⟨newId, user_data.username, user_data.email, hashed_password, now, now⟩
      let access_token := create_access_token (some db_user.username)
        (some (ACCESS_TOKEN_EXPIRE_MINUTES * 60)) now key
      (.ok ⟨access_token, "bearer", UserResponse.ofUser db_user⟩, db ++ [db_user])

/-- Login handler (src/app/auth_prisma.py lines 137-157): authenticate,
fail with a single 401 otherwise, and issue a 30-minute token. -/
def login (db : List User) (user_data : UserLogin) (now : Nat) (key : String) :
    Except HTTPError Token × List User :=
  match authenticate_user db user_data.username user_data.password with
  | none => (.error ⟨401, "Incorrect username or password"⟩, db)
  | some user =>
    let access_token := create_access_token (some user.username)
      (some (ACCESS_TOKEN_EXPIRE_MINUTES * 60)) now key
    (.ok ⟨access_token, "bearer", UserResponse.ofUser user⟩, db)

/-- GET /auth/me handler (src/app/auth_prisma.py lines 159-162): resolve
the session and return the public view of the current user. -/
def get_current_user_info (db : List User) (token : JWT) (key : String) (now : Nat) :
    Except HTTPError UserResponse × List User :=
  match get_current_user db token key now with
  | (.error e, db') => (.error e, db')
  | (.ok user, db') => (.ok (UserResponse.ofUser user), db')

/-! Theorems settling the claims. -/

/-- Helper: `authenticate_user` returns `none` exactly when the username
is unknown or password verification against the stored hash fails. -/
theorem authenticate_user_eq_none_iff (db : List User) (username password : String) :
    authenticate_user db username password = none ↔
      get_user_by_username db username = none ∨
      ∃ user, get_user_by_username db username = some user ∧
        verify_password password user.password = false := by
  unfold authenticate_user
  cases h : get_user_by_username db username with
  | none => simp
  | some u =>
    by_cases hv : verify_password password u.password
    · simp [hv]
    · simp only [Bool.not_eq_true] at hv
      simp [hv]

/-- C7: for every plaintext p, verify(p, hash(p)) returns true, and for
every plaintext p' different from p, verify(p', hash(p)) returns false. -/
theorem verify_hash_roundtrip (p p' : String) :
    verify_password p (get_password_hash p) = true ∧
    (p' ≠ p → verify_password p' (get_password_hash p) = false) := by
  constructor
  · simp [verify_password, get_password_hash]
  · intro hne
    simp [verify_password, get_password_hash]
    exact fun h => absurd h.symm hne

/-- Witness for C7 at concrete plaintexts "secret1" and "secret2". -/
theorem verify_hash_roundtrip_witness :
    verify_password "secret1" (get_password_hash "secret1") = true ∧
    verify_password "secret2" (get_password_hash "secret1") = false := by
  have h := verify_hash_roundtrip "secret1" "secret2"
  exact ⟨h.1, h.2 (by decide)⟩

/-- C8: for every plaintext and every malformed (non-hash) string
supplied as the stored hash, verification is an ordinary total call that
returns false: it fails rather than throwing. -/
theorem verify_malformed_returns_false (plain raw : String) :
    verify_password plain (PasswordHash.malformed raw) = false := rfl

/-- C9: session resolution and login never modify the credential store,
whether they succeed or fail. -/
theorem auth_read_paths_preserve_store (db : List User) (token : JWT) (key : String)
    (now : Nat) (user_data : UserLogin) (now₂ : Nat) (key₂ : String) :
    (get_current_user db token key now).2 = db ∧
    (login db user_data now₂ key₂).2 = db := by
  constructor
  · unfold get_current_user
    repeat first | rfl | split
  · unfold login
    repeat first | rfl | split

/-- C10: when both the username and the email of a signup request already
exist in the store, the reported failure is the duplicate-username error,
never the duplicate-email error (username uniqueness is checked first). -/
theorem signup_username_checked_first (db : List User) (user_data : UserCreate)
    (newId : String) (now : Nat) (key : String)
    (hu : (get_user_by_username db user_data.username).isSome)
    (he : (get_user_by_email db user_data.email).isSome) :
    signup db user_data newId now key =
      (.error ⟨400, "Username already registered"⟩, db) := by
  unfold signup
  cases h : get_user_by_username db user_data.username with
  | none => rw [h] at hu; simp at hu
  | some u => rfl

/-- Witness for C10: a store with one record where both the username and
the email of the request are already taken. -/
theorem signup_username_checked_first_witness :
    signup [⟨"u1", "alice", "alice@x.com", .bcrypt "secret1", 0, 0⟩]
        ⟨"alice@x.com", "alice", "pw"⟩ "u2" 5 "k" =
      (.error ⟨400, "Username already registered"⟩,
        [⟨"u1", "alice", "alice@x.com", .bcrypt "secret1", 0, 0⟩]) :=
  signup_username_checked_first
    [⟨"u1", "alice", "alice@x.com", .bcrypt "secret1", 0, 0⟩]
    ⟨"alice@x.com", "alice", "pw"⟩ "u2" 5 "k" (by decide) (by decide)

/-- C2: a signup request whose username already exists fails with the
duplicate-username error, and one whose username is fresh but whose email
already exists fails with the duplicate-email error; in both cases the
credential store is returned unchanged (no hash, no insert). -/
theorem signup_duplicate_rejected (db : List User) (user_data : UserCreate)
    (newId : String) (now : Nat) (key : String) :
    ((get_user_by_username db user_data.username).isSome →
      signup db user_data newId now key =
        (.error ⟨400, "Username already registered"⟩, db)) ∧
    (get_user_by_username db user_data.username = none →
      (get_user_by_email db user_data.email).isSome →
      signup db user_data newId now key =
        (.error ⟨400, "Email already registered"⟩, db)) := by
  constructor
  · intro hu
    unfold signup
    cases h : get_user_by_username db user_data.username with
    | none => rw [h] at hu; simp at hu
    | some u => rfl
  · intro hu he
    unfold signup
    rw [hu]
    cases h : get_user_by_email db user_data.email with
    | none => rw [h] at he; simp at he
    | some u => rfl

/-- Witness for C2: one run against a store where the username is taken,
one against a store where only the email is taken. -/
theorem signup_duplicate_rejected_witness :
    signup [⟨"u1", "alice", "alice@x.com", .bcrypt "secret1", 0, 0⟩]
        ⟨"bob@x.com", "alice", "pw"⟩ "u2" 5 "k" =
      (.error ⟨400, "Username already registered"⟩,
        [⟨"u1", "alice", "alice@x.com", .bcrypt "secret1", 0, 0⟩]) ∧
    signup [⟨"u1", "alice", "alice@x.com", .bcrypt "secret1", 0, 0⟩]
        ⟨"alice@x.com", "bob", "pw"⟩ "u2" 5 "k" =
      (.error ⟨400, "Email already registered"⟩,
        [⟨"u1", "alice", "alice@x.com", .bcrypt "secret1", 0, 0⟩]) :=
  ⟨(signup_duplicate_rejected [⟨"u1", "alice", "alice@x.com", .bcrypt "secret1", 0, 0⟩]
      ⟨"bob@x.com", "alice", "pw"⟩ "u2" 5 "k").1 (by decide),
   (signup_duplicate_rejected [⟨"u1", "alice", "alice@x.com", .bcrypt "secret1", 0, 0⟩]
      ⟨"alice@x.com", "bob", "pw"⟩ "u2" 5 "k").2 (by decide) (by decide)⟩

/-- C3: login fails with the single 401 "Incorrect username or password"
exactly when the username is unknown or password verification fails, and
a run with an unknown username and a run with a known username but wrong
password produce the same externally visible response. -/
theorem login_invalid_credentials_uniform (db : List User) (user_data : UserLogin)
    (now : Nat) (key : String) :
    ((login db user_data now key).1 =
        .error ⟨401, "Incorrect username or password"⟩ ↔
      (get_user_by_username db user_data.username = none ∨
        ∃ user, get_user_by_username db user_data.username = some user ∧
          verify_password user_data.password user.password = false)) ∧
    (∀ (db₂ : List User) (ud₂ : UserLogin) (now₂ : Nat) (key₂ : String),
      get_user_by_username db user_data.username = none →
      (∃ user, get_user_by_username db₂ ud₂.username = some user ∧
        verify_password ud₂.password user.password = false) →
      (login db user_data now key).1 = (login db₂ ud₂ now₂ key₂).1) := by
  have herr : ∀ (d : List User) (ud : UserLogin) (n : Nat) (k : String),
      (login d ud n k).1 = .error ⟨401, "Incorrect username or password"⟩ ↔
        authenticate_user d ud.username ud.password = none := by
    intro d ud n k
    unfold login
    cases h : authenticate_user d ud.username ud.password with
    | none => simp
    | some u => simp
  constructor
  · rw [herr db user_data now key]
    exact authenticate_user_eq_none_iff db user_data.username user_data.password
  · intro db₂ ud₂ now₂ key₂ h₁ h₂
    have e₁ : (login db user_data now key).1 =
        .error ⟨401, "Incorrect username or password"⟩ :=
      (herr db user_data now key).mpr
        ((authenticate_user_eq_none_iff db user_data.username user_data.password).mpr
          (Or.inl h₁))
    have e₂ : (login db₂ ud₂ now₂ key₂).1 =
        .error ⟨401, "Incorrect username or password"⟩ :=
      (herr db₂ ud₂ now₂ key₂).mpr
        ((authenticate_user_eq_none_iff db₂ ud₂.username ud₂.password).mpr
          (Or.inr h₂))
    rw [e₁, e₂]

/-- Witness for C3: the response for an unknown username over an empty
store equals the response for a wrong password against a stored record. -/
theorem login_invalid_credentials_uniform_witness :
    (login [] ⟨"alice", "pw"⟩ 0 "k").1 =
      (login [⟨"u1", "alice", "alice@x.com", .bcrypt "secret1", 0, 0⟩]
        ⟨"alice", "wrong"⟩ 3 "k2").1 :=
  (login_invalid_credentials_uniform [] ⟨"alice", "pw"⟩ 0 "k").2
    [⟨"u1", "alice", "alice@x.com", .bcrypt "secret1", 0, 0⟩] ⟨"alice", "wrong"⟩ 3 "k2"
    (by decide) ⟨⟨"u1", "alice", "alice@x.com", .bcrypt "secret1", 0, 0⟩, by decide, by decide⟩

/-- C4: tokens issued by the signup and login flows expire 30 minutes
after issuance, and `create_access_token` called with no explicit ttl
sets the expiry to 15 minutes after issuance. -/
theorem token_expiry_defaults (db : List User) (now : Nat) (key : String) :
    (∀ (ud : UserCreate) (newId : String) (t : Token) (db' : List User),
      signup db ud newId now key = (.ok t, db') →
      t.access_token.payload.exp = now + 30 * 60) ∧
    (∀ (ud : UserLogin) (t : Token) (db' : List User),
      login db ud now key = (.ok t, db') →
      t.access_token.payload.exp = now + 30 * 60) ∧
    (∀ (sub : Option String),
      (create_access_token sub none now key).payload.exp = now + 15 * 60) := by
  refine ⟨?_, ?_, ?_⟩
  · intro ud newId t db' h
    unfold signup at h
    cases hu : get_user_by_username db ud.username with
    | some u => rw [hu] at h; simp at h
    | none =>
      rw [hu] at h
      cases he : get_user_by_email db ud.email with
      | some u => rw [he] at h; simp at h
      | none =>
        rw [he] at h
        simp only [Prod.mk.injEq, Except.ok.injEq] at h
        rw [← h.1]
        simp [create_access_token, jwt_encode, ACCESS_TOKEN_EXPIRE_MINUTES]
  · intro ud t db' h
    unfold login at h
    cases ha : authenticate_user db ud.username ud.password with
    | none => rw [ha] at h; simp at h
    | some u =>
      rw [ha] at h
      simp only [Prod.mk.injEq, Except.ok.injEq] at h
      rw [← h.1]
      simp [create_access_token, jwt_encode, ACCESS_TOKEN_EXPIRE_MINUTES]
  · intro sub
    simp [create_access_token, jwt_encode]

/-- Witness for C4: a concrete signup over the empty store at time 0
yields a token expiring at 1800 = 0 + 30 * 60. -/
theorem token_expiry_defaults_witness :
    (⟨⟨⟨some "alice", 1800⟩, "k", ⟨some "alice", 1800⟩⟩, "bearer",
        ⟨"u1", "alice@x.com", "alice", 0, 0⟩⟩ : Token).access_token.payload.exp
      = 0 + 30 * 60 :=
  (token_expiry_defaults [] 0 "k").1 ⟨"alice@x.com", "alice", "secret1"⟩ "u1"
    ⟨⟨⟨some "alice", 1800⟩, "k", ⟨some "alice", 1800⟩⟩, "bearer",
      ⟨"u1", "alice@x.com", "alice", 0, 0⟩⟩
    [⟨"u1", "alice", "alice@x.com", .bcrypt "secret1", 0, 0⟩] rfl

/-- C5: every successful signup and login response carries
token_type = "bearer" and a user view that is the public projection of an
identity record; the public view (also the one returned by GET /auth/me)
is independent of the stored password hash, so the hash never appears in
any response. -/
theorem response_shape_no_password (db : List User) (now : Nat) (key : String) :
    (∀ (ud : UserCreate) (newId : String) (t : Token) (db' : List User),
      signup db ud newId now key = (.ok t, db') →
      t.token_type = "bearer" ∧ ∃ u : User, t.user = UserResponse.ofUser u) ∧
    (∀ (ud : UserLogin) (t : Token) (db' : List User),
      login db ud now key = (.ok t, db') →
      t.token_type = "bearer" ∧ ∃ u : User, t.user = UserResponse.ofUser u) ∧
    (∀ (token : JWT) (r : UserResponse) (db' : List User),
      get_current_user_info db token key now = (.ok r, db') →
      ∃ u : User, r = UserResponse.ofUser u) ∧
    (∀ (u : User) (p : PasswordHash),
      UserResponse.ofUser { u with password := p } = UserResponse.ofUser u) := by
  refine ⟨?_, ?_, ?_, ?_⟩
  · intro ud newId t db' h
    unfold signup at h
    cases hu : get_user_by_username db ud.username with
    | some u => rw [hu] at h; simp at h
    | none =>
      rw [hu] at h
      cases he : get_user_by_email db ud.email with
      | some u => rw [he] at h; simp at h
      | none =>
        rw [he] at h
        simp only [Prod.mk.injEq, Except.ok.injEq] at h
        rw [← h.1]
        exact ⟨rfl, ⟨_, rfl⟩⟩
  · intro ud t db' h
    unfold login at h
    cases ha : authenticate_user db ud.username ud.password with
    | none => rw [ha] at h; simp at h
    | some u =>
      rw [ha] at h
      simp only [Prod.mk.injEq, Except.ok.injEq] at h
      rw [← h.1]
      exact ⟨rfl, ⟨u, rfl⟩⟩
  · intro token r db' h
    unfold get_current_user_info at h
    cases hg : get_current_user db token key now with
    | mk res store =>
      rw [hg] at h
      cases res with
      | error e => simp at h
      | ok u =>
        simp only [Prod.mk.injEq, Except.ok.injEq] at h
        exact ⟨u, h.1.symm⟩
  · intro u p
    rfl

/-- Witness for C5: the concrete signup of C4's witness has token_type
"bearer" and a public-projection user view. -/
theorem response_shape_no_password_witness :
    (⟨⟨⟨some "alice", 1800⟩, "k", ⟨some "alice", 1800⟩⟩, "bearer",
        ⟨"u1", "alice@x.com", "alice", 0, 0⟩⟩ : Token).token_type = "bearer" ∧
    ∃ u : User,
      (⟨⟨⟨some "alice", 1800⟩, "k", ⟨some "alice", 1800⟩⟩, "bearer",
          ⟨"u1", "alice@x.com", "alice", 0, 0⟩⟩ : Token).user = UserResponse.ofUser u :=
  (response_shape_no_password [] 0 "k").1 ⟨"alice@x.com", "alice", "secret1"⟩ "u1"
    ⟨⟨⟨some "alice", 1800⟩, "k", ⟨some "alice", 1800⟩⟩, "bearer",
      ⟨"u1", "alice@x.com", "alice", 0, 0⟩⟩
    [⟨"u1", "alice", "alice@x.com", .bcrypt "secret1", 0, 0⟩] rfl

/-- Helper: a successful session resolution implies that the signature
verified, the token was unexpired, the subject claim was present, and the
store lookup found the resolved user. -/
theorem get_current_user_ok_conditions (db : List User) (token : JWT) (key : String)
    (now : Nat) (u : User)
    (h : (get_current_user db token key now).1 = .ok u) :
    token.sigKey = key ∧ token.sigPayload = token.payload ∧ now < token.payload.exp ∧
    token.payload.sub = some u.username ∧
    get_user_by_username db u.username = some u := by
  unfold get_current_user at h
  split at h
  · simp at h
  next payload hdec =>
    unfold jwt_decode at hdec
    split at hdec
    next hc =>
      injection hdec with hpay
      subst hpay
      split at h
      · simp at h
      next s hsub =>
        split at h
        · simp at h
        next u' hlook =>
          have hu : u' = u := by simpa using h
          subst hu
          have hs : u'.username = s := by
            have hfind := List.find?_some hlook
            simpa using hfind
          exact ⟨hc.1, hc.2.1, hc.2.2, hs ▸ hsub, hs ▸ hlook⟩
    · simp at hdec

/-- Helper: a failed session resolution carries exactly the uniform
`credentials_exception`, and one of the four failure causes holds. -/
theorem get_current_user_error_conditions (db : List User) (token : JWT) (key : String)
    (now : Nat) (e : HTTPError)
    (h : (get_current_user db token key now).1 = .error e) :
    e = credentials_exception ∧
    (token.sigKey ≠ key ∨ token.sigPayload ≠ token.payload ∨
      token.payload.sub = none ∨ token.payload.exp ≤ now ∨
      ∃ s, token.payload.sub = some s ∧ get_user_by_username db s = none) := by
  unfold get_current_user at h
  split at h
  next hdec =>
    refine ⟨(Except.error.inj h).symm, ?_⟩
    unfold jwt_decode at hdec
    split at hdec
    · simp at hdec
    next hc =>
      rw [not_and_or, not_and_or] at hc
      rcases hc with h1 | h2 | h3
      · exact Or.inl h1
      · exact Or.inr (Or.inl h2)
      · exact Or.inr (Or.inr (Or.inr (Or.inl (Nat.not_lt.mp h3))))
  next payload hdec =>
    unfold jwt_decode at hdec
    split at hdec
    next hc =>
      injection hdec with hpay
      subst hpay
      split at h
      next hsub =>
        exact ⟨(Except.error.inj h).symm, Or.inr (Or.inr (Or.inl hsub))⟩
      next s hsub =>
        split at h
        next hlook =>
          exact ⟨(Except.error.inj h).symm,
            Or.inr (Or.inr (Or.inr (Or.inr ⟨s, hsub, hlook⟩)))⟩
        next u hlook => simp at h
    · simp at hdec

/-- C1: session resolution fails if and only if the signature does not
verify, or the subject claim is missing, or the current time is at or
past expiry, or no record with the subject username exists; every failure
carries the identical `credentials_exception`; on success the resolved
record's username equals the token's subject. -/
theorem get_current_user_unauthenticated_iff (db : List User) (token : JWT)
    (key : String) (now : Nat) :
    ((∃ e, (get_current_user db token key now).1 = .error e) ↔
      (token.sigKey ≠ key ∨ token.sigPayload ≠ token.payload ∨
        token.payload.sub = none ∨ token.payload.exp ≤ now ∨
        ∃ s, token.payload.sub = some s ∧ get_user_by_username db s = none)) ∧
    (∀ e, (get_current_user db token key now).1 = .error e →
      e = credentials_exception) ∧
    (∀ u, (get_current_user db token key now).1 = .ok u →
      token.payload.sub = some u.username) := by
  refine ⟨⟨?_, ?_⟩, ?_, ?_⟩
  · rintro ⟨e, he⟩
    exact (get_current_user_error_conditions db token key now e he).2
  · intro hcond
    cases hres : (get_current_user db token key now).1 with
    | error e => exact ⟨e, rfl⟩
    | ok u =>
      obtain ⟨hk, hp, hlt, hsub, hlook⟩ :=
        get_current_user_ok_conditions db token key now u hres
      rcases hcond with h | h | h | h | ⟨s, hs, hn⟩
      · exact absurd hk h
      · exact absurd hp h
      · rw [hsub] at h; simp at h
      · exact absurd h (Nat.not_le.mpr hlt)
      · rw [hsub] at hs
        injection hs with hs'
        rw [← hs'] at hn
        rw [hn] at hlook
        simp at hlook
  · intro e he
    exact (get_current_user_error_conditions db token key now e he).1
  · intro u hu
    exact (get_current_user_ok_conditions db token key now u hu).2.2.2.1

/-- Witness for C1: a correctly signed token for "alice" validated
exactly at its expiry instant over the empty store fails with the uniform
`credentials_exception`. -/
theorem get_current_user_unauthenticated_iff_witness :
    (get_current_user [] ⟨⟨some "alice", 100⟩, "k", ⟨some "alice", 100⟩⟩ "k" 100).1
      = .error credentials_exception := by
  have h := get_current_user_unauthenticated_iff []
    ⟨⟨some "alice", 100⟩, "k", ⟨some "alice", 100⟩⟩ "k" 100
  obtain ⟨e, he⟩ := h.1.mpr (Or.inr (Or.inr (Or.inr (Or.inl (Nat.le_refl 100)))))
  rw [he, h.2.1 e he]

/-- C6: a signup with a username and email that are fresh in the store
succeeds, and resolving the returned token before its expiry against the
resulting store yields exactly the signed-up username. -/
theorem signup_token_roundtrip (db : List User) (ud : UserCreate) (newId : String)
    (now now' : Nat) (key : String)
    (hu : get_user_by_username db ud.username = none)
    (he : get_user_by_email db ud.email = none)
    (hvalid : now' < now + ACCESS_TOKEN_EXPIRE_MINUTES * 60) :
    ∃ t db', signup db ud newId now key = (.ok t, db') ∧
      ∃ u, (get_current_user db' t.access_token key now').1 = .ok u ∧
        u.username = ud.username := by
  have htok : create_access_token (some ud.username)
      (some (ACCESS_TOKEN_EXPIRE_MINUTES * 60)) now key
      = ⟨⟨some ud.username, now + ACCESS_TOKEN_EXPIRE_MINUTES * 60⟩, key,
          ⟨some ud.username, now + ACCESS_TOKEN_EXPIRE_MINUTES * 60⟩⟩ := rfl
  have hsign : signup db ud newId now key =
      (.ok ⟨create_access_token (some ud.username)
          (some (ACCESS_TOKEN_EXPIRE_MINUTES * 60)) now key, "bearer",
          UserResponse.ofUser ⟨newId, ud.username, ud.email,
            get_password_hash ud.password, now, now⟩⟩,
        db ++ [⟨newId, ud.username, ud.email, get_password_hash ud.password, now, now⟩]) := by
    unfold signup
    rw [hu, he]
  refine ⟨_, _, hsign, ?_⟩
  have hlook : get_user_by_username
      (db ++ [⟨newId, ud.username, ud.email, get_password_hash ud.password, now, now⟩])
      ud.username
      = some ⟨newId, ud.username, ud.email, get_password_hash ud.password, now, now⟩ := by
    unfold get_user_by_username at hu ⊢
    rw [List.find?_append, hu]
    simp
  have hdec : jwt_decode (create_access_token (some ud.username)
      (some (ACCESS_TOKEN_EXPIRE_MINUTES * 60)) now key) key now'
      = some ⟨some ud.username, now + ACCESS_TOKEN_EXPIRE_MINUTES * 60⟩ := by
    rw [htok]
    unfold jwt_decode
    rw [if_pos ⟨rfl, rfl, hvalid⟩]
  refine ⟨⟨newId, ud.username, ud.email, get_password_hash ud.password, now, now⟩, ?_, rfl⟩
  unfold get_current_user
  simp only [hdec, hlook]

/-- Witness for C6: signing up "alice" over the empty store at time 0 and
resolving the returned token at time 100 yields the record for "alice". -/
theorem signup_token_roundtrip_witness :
    ∃ t db', signup [] ⟨"alice@x.com", "alice", "secret1"⟩ "u1" 0 "k" = (.ok t, db') ∧
      ∃ u, (get_current_user db' t.access_token "k" 100).1 = .ok u ∧
        u.username = "alice" :=
  signup_token_roundtrip [] ⟨"alice@x.com", "alice", "secret1"⟩ "u1" 0 100 "k"
    rfl rfl (by decide)

end Backend
